import Mathlib

/-!
Verification of the ComfyUI-BespokeAI-3D front-end viewer
(`web/bespokeai_3d_viewer.js` and `web/bespokeai_3d_preview.js`) against its
natural-language specification.

The viewer widget is embedded shallowly: its mutable fields become a `Widget`
record, the asynchronous `loadModel` is split at its single suspension point
(the fetch) into a synchronous prefix `loadPhase1` and a completion
`loadPhase2`, and interleavings of overlapping loads are traces of
issue/complete events executed by `stepEv`.  Scene-graph bookkeeping that the
claims observe (which models are attached to the scene, which have been
disposed, how many scenes/renderers/loops were created) is tracked by
counters and lists; bounding-box geometry is modelled over `ℚ`, with JS
division-by-zero made explicit via `JsNum`.
-/

namespace Bespoke

/-- The status overlay of the viewer container (`loadingDiv` text/visibility in
`bespokeai_3d_viewer.js`). -/
inductive Overlay where
  /-- "Initializing 3D Viewer..." -- the text set in the constructor. -/
  | bootText
  /-- `loadingDiv.style.display = "none"`. -/
  | hidden
  /-- "Loading 3D model..." (green). -/
  | loadingModel
  /-- "Failed to load 3D engine" (red), set in `init` when the module load fails. -/
  | engineError
  /-- "Error loading model" (red), set in the catch branch of `loadModel`. -/
  | loadError
deriving DecidableEq, Repr

/-- The mutable state of one `BespokeAI3DViewerWidget` instance, together with
observation counters for the claims (fetches issued, scenes/renderers/loops
created, models disposed, frames rendered). -/
structure Widget where
  /-- `this.isInitialized`. -/
  isInitialized : Bool := false
  /-- `this.currentUrl`. -/
  currentUrl : Option String := none
  /-- `this.model` (model identifiers are abstracted to `Nat`). -/
  model : Option Nat := none
  /-- The models currently added to `this.scene` (in attach order). -/
  sceneModels : List Nat := []
  /-- The models whose geometry/materials have been disposed by `clearModel`. -/
  disposedModels : List Nat := []
  /-- The overlay contents. -/
  overlay : Overlay := .bootText
  /-- The urls handed to `loader.load`, in order: one entry per network fetch. -/
  fetches : List String := []
  /-- How many `new THREE.Scene()` this instance has executed. -/
  scenesCreated : Nat := 0
  /-- How many `new THREE.PerspectiveCamera(...)` this instance has executed. -/
  camerasCreated : Nat := 0
  /-- How many `new THREE.WebGLRenderer(...)` this instance has executed. -/
  renderersCreated : Nat := 0
  /-- Whether `renderer.dispose()` has been called. -/
  rendererDisposed : Bool := false
  /-- How many `animate()` self-rescheduling loops were started (one per `init`). -/
  loopsStarted : Nat := 0
  /-- `this.animationId`: the id of the last `requestAnimationFrame` call. -/
  animationId : Option Nat := none
  /-- Whether a frame callback is currently scheduled (set by
  `requestAnimationFrame`, cleared by `cancelAnimationFrame`). -/
  animPending : Bool := false
  /-- How many frames `renderer.render` has drawn. -/
  rendersDone : Nat := 0
deriving DecidableEq, Repr

/-- A widget fresh out of the constructor. -/
def widget0 : Widget := {}

/-- One invocation of `animate()` (lines 172-177): returns at once when the
widget is not initialized, otherwise schedules the next frame (recording a
fresh `animationId`) and renders one frame. -/
def animate (w : Widget) : Widget :=
  if w.isInitialized then
    { w with
        animationId := some (w.rendersDone + 1)
        animPending := true
        rendersDone := w.rendersDone + 1 }
  else w

/-- `k` consecutive firings of the frame callback. -/
def animateIter : Nat → Widget → Widget
  | 0, w => w
  | k + 1, w => animateIter k (animate w)

/-- `init()` (lines 104-170).  `engineOk` stands for the outcome of the
awaited `loadThreeJS()` module load.  On failure the overlay turns into the
engine-error message and `false` is returned.  On success the body runs
unconditionally -- there is no early return for an already-initialized
widget -- creating a new scene, camera and renderer, marking the widget
initialized, hiding the overlay and calling `animate()`. -/
def init (engineOk : Bool) (w : Widget) : Widget × Bool :=
  if engineOk then
    ( animate
        { w with
            scenesCreated := w.scenesCreated + 1
            camerasCreated := w.camerasCreated + 1
            renderersCreated := w.renderersCreated + 1
            isInitialized := true
            overlay := .hidden
            loopsStarted := w.loopsStarted + 1 },
      true )
  else ({ w with overlay := .engineError }, false)

/-- `clearModel()` (lines 179-198): when a model is attached, remove it from
the scene, dispose its geometry/materials, and null the reference. -/
def clearModel (w : Widget) : Widget :=
  match w.model with
  | none => w
  | some m =>
      { w with
          sceneModels := w.sceneModels.erase m
          disposedModels := w.disposedModels ++ [m]
          model := none }

/-- The synchronous prefix of `loadModel(url)` (lines 200-214), up to and
including handing the url to `GLTFLoader.load`: the early return when
`currentUrl` already equals `url`, the `currentUrl` assignment, the lazy
`init()` call, the loading overlay, `clearModel()`, and the fetch.  The second
component is `some url` when a fetch is now in flight and `none` when the call
returned without fetching. -/
def loadPhase1 (engineOk : Bool) (w : Widget) (url : String) : Widget × Option String :=
  if w.currentUrl == some url then (w, none)
  else
    let w1 := { w with currentUrl := some url }
    let p := if w1.isInitialized then (w1, true) else init engineOk w1
    if p.2 then
      let w2 := clearModel { p.1 with overlay := .loadingModel }
      ({ w2 with fetches := w2.fetches ++ [url] }, some url)
    else (p.1, none)

/-- The resolution of the fetch started by `loadPhase1`. -/
inductive FetchResult where
  /-- `loader.load` resolved with a scene graph (abstracted to an id). -/
  | success (m : Nat)
  /-- `loader.load` rejected (network error, corrupt document, ...). -/
  | failure
deriving DecidableEq, Repr

/-- The continuation of `loadModel` after its awaited fetch resolves
(lines 216-259).  On success the result is attached unconditionally --
`this.model = gltf.scene`, centring/scaling, `this.scene.add(this.model)` --
with no check that this request is still the latest one; on failure only the
overlay is updated. -/
def loadPhase2 (w : Widget) (r : FetchResult) : Widget :=
  match r with
  | .success m =>
      { w with
          model := some m
          sceneModels := w.sceneModels ++ [m]
          overlay := .hidden }
  | .failure => { w with overlay := .loadError }

/-- An event of the single-threaded event loop: a `loadModel(url)` call runs
its synchronous prefix, and a `complete i r` event resumes the `i`-th issued
call (0-based, in issue order) with its fetch outcome. -/
inductive Event where
  | issue (url : String)
  | complete (i : Nat) (r : FetchResult)
deriving DecidableEq, Repr

/-- The widget together with the ledger of issued `loadModel` calls:
`pend.get? i = some (some u)` when the `i`-th call's fetch of `u` is still in
flight, `some none` when that call fetched nothing or already resumed. -/
structure Sys where
  w : Widget
  pend : List (Option String)
deriving DecidableEq, Repr

/-- The system at widget creation. -/
def sys0 : Sys := { w := widget0, pend := [] }

/-- One event-loop step.  A `complete` for a request that is not in flight is
a no-op (each fetch resolves exactly once). -/
def stepEv (engineOk : Bool) (s : Sys) : Event → Sys
  | .issue url =>
      let p := loadPhase1 engineOk s.w url
      { w := p.1, pend := s.pend ++ [p.2] }
  | .complete i r =>
      match s.pend.get? i with
      | some (some _) => { w := loadPhase2 s.w r, pend := s.pend.set i none }
      | _ => s

/-- Run a list of event-loop steps in order. -/
def runEvents (engineOk : Bool) (s : Sys) : List Event → Sys
  | [] => s
  | e :: es => runEvents engineOk (stepEv engineOk s e) es

/-! ## `destroy()`.

The teardown path touches two nullable references (`this.scene` inside
`clearModel`, behind the `this.model` guard, and `this.renderer`), so it is
modelled in `Except`: a `nullAccess` value marks a dereference the code would
throw on. -/

/-- A JS `TypeError` from dereferencing a null field. -/
inductive JsErr where
  | nullAccess
deriving DecidableEq, Repr

/-- `clearModel()` with its null accesses explicit: when a model is attached,
`this.scene.remove(...)` dereferences `this.scene`, which is only non-null
after a scene was created. -/
def clearModelE (w : Widget) : Except JsErr Widget :=
  match w.model with
  | none => .ok w
  | some m =>
      if w.scenesCreated = 0 then .error .nullAccess
      else
        .ok { w with
                sceneModels := w.sceneModels.erase m
                disposedModels := w.disposedModels ++ [m]
                model := none }

/-- `destroy()` (lines 273-282): cancel the scheduled frame when an
`animationId` was recorded, clear the model, dispose the renderer when one
exists, and drop the initialized flag.  Nothing resets `currentUrl` or
`animationId` itself.  A `nullAccess` raised inside `clearModel` propagates. -/
def destroyE (w : Widget) : Except JsErr Widget :=
  let w1 := if w.animationId.isSome then { w with animPending := false } else w
  match clearModelE w1 with
  | .error e => .error e
  | .ok w2 =>
      let w3 := if 0 < w2.renderersCreated then { w2 with rendererDisposed := true } else w2
      .ok { w3 with isInitialized := false }

/-- The widget `destroy()` produces when it runs without a null dereference
(same steps as `destroyE`, with `clearModel` in place of `clearModelE`). -/
def destroyPure (w : Widget) : Widget :=
  let w1 := if w.animationId.isSome then { w with animPending := false } else w
  let w2 := clearModel w1
  let w3 := if 0 < w2.renderersCreated then { w2 with rendererDisposed := true } else w2
  { w3 with isInitialized := false }

/-! ## Bounding-box geometry.

`THREE.Box3`, `THREE.Vector3` and the centre-and-scale arithmetic of the two
load success paths, over exact rationals.  JS division is kept honest by
`JsNum`, which records the IEEE special values produced when the divisor is
zero. -/

/-- A `THREE.Vector3` over `ℚ`. -/
structure V3 where
  x : ℚ
  y : ℚ
  z : ℚ
deriving DecidableEq, Repr

/-- A `THREE.Box3`: axis-aligned, given by its two corners. -/
structure Box3 where
  lo : V3
  hi : V3
deriving DecidableEq, Repr

/-- `Box3.getCenter`: the midpoint of the two corners. -/
def Box3.center (b : Box3) : V3 :=
  ⟨(b.lo.x + b.hi.x) / 2, (b.lo.y + b.hi.y) / 2, (b.lo.z + b.hi.z) / 2⟩

/-- `Box3.getSize`: componentwise extent. -/
def Box3.size (b : Box3) : V3 :=
  ⟨b.hi.x - b.lo.x, b.hi.y - b.lo.y, b.hi.z - b.lo.z⟩

/-- `Math.max(size.x, size.y, size.z)` as computed in both load paths. -/
def maxDim (b : Box3) : ℚ :=
  max (max b.size.x b.size.y) b.size.z

/-- A JS number that may be one of the IEEE special values. -/
inductive JsNum where
  | fin (q : ℚ)
  | posInf
  | negInf
  | nan
deriving DecidableEq, Repr

/-- JS division `a / b` of two finite numbers: division by zero yields
`Infinity` / `-Infinity` / `NaN` according to the sign of the numerator. -/
def jsDiv (a b : ℚ) : JsNum :=
  if b = 0 then
    if 0 < a then .posInf else if a < 0 then .negInf else .nan
  else .fin (a / b)

/-- The scale computed by both load success paths: `2 / maxDim`, with no
guard against a zero-size box. -/
def scaleOf (b : Box3) : JsNum := jsDiv 2 (maxDim b)

/-- Outcome of the load continuation once the document has parsed. -/
inductive LoadOutcome where
  /-- The model is attached to the scene with the given uniform scale. -/
  | attached (scale : JsNum)
  /-- The load is surfaced as an error (overlay message, nothing attached). -/
  | loadError
deriving DecidableEq, Repr

/-- The success continuation of both `loadModel` variants contains no branch
on the bounding box: every parsed scene is attached, with scale `2 / maxDim`
(lines 233-245 of the viewer, 226-241 of the preview). -/
def successOutcome (b : Box3) : LoadOutcome := .attached (scaleOf b)

/-- A uniform scale plus translation, as held in `model.scale` /
`model.position` after the centring code ran. -/
structure Transform where
  scale : ℚ
  pos : V3
deriving DecidableEq, Repr

/-- The world-space bounding box of a model whose local box is `b` after a
transform with nonnegative uniform scale: each corner maps to
`scale • corner + pos`. -/
def worldBox (b : Box3) (t : Transform) : Box3 :=
  ⟨⟨t.scale * b.lo.x + t.pos.x, t.scale * b.lo.y + t.pos.y, t.scale * b.lo.z + t.pos.z⟩,
   ⟨t.scale * b.hi.x + t.pos.x, t.scale * b.hi.y + t.pos.y, t.scale * b.hi.z + t.pos.z⟩⟩

/-- The transform assigned by the viewer variant (lines 234-243):
`scale = 2 / maxDim`, `position = -center * scale`; written over `ℚ`, which
agrees with the JS arithmetic whenever `maxDim ≠ 0`
(see `scaleOf_eq_viewerTransform`). -/
def viewerTransform (b : Box3) : Transform :=
  let s : ℚ := 2 / maxDim b
  let c := b.center
  { scale := s, pos := ⟨-c.x * s, -c.y * s, -c.z * s⟩ }

/-- The transform assigned by the preview variant (lines 231-239):
after `scale.multiplyScalar(scale)` the box is recomputed (giving
`scale • b`), the position is reduced by its centre, and then lifted by
`size.y * scale / 2` (using the pre-scale `size`). -/
def previewTransform (b : Box3) : Transform :=
  let s : ℚ := 2 / maxDim b
  let c := b.center
  { scale := s, pos := ⟨-(s * c.x), -(s * c.y) + b.size.y * s / 2, -(s * c.z)⟩ }

/-! ## Retrieval URLs.

`encodeURIComponent` and the two `onExecuted` url builders. -/

/-- JS truthiness of a possibly-undefined string: `undefined` and `""` are
falsy. -/
def isTruthy : Option String → Bool
  | none => false
  | some s => s != ""

/-- The UTF-8 bytes of one character. -/
def utf8Bytes (c : Char) : List Nat :=
  let n := c.toNat
  if n < 128 then [n]
  else if n < 2048 then [192 + n / 64, 128 + n % 64]
  else if n < 65536 then [224 + n / 4096, 128 + (n / 64) % 64, 128 + n % 64]
  else [240 + n / 262144, 128 + (n / 4096) % 64, 128 + (n / 64) % 64, 128 + n % 64]

/-- An uppercase hex digit. -/
def hexDigit (n : Nat) : Char :=
  if n < 10 then Char.ofNat (48 + n) else Char.ofNat (55 + n)

/-- `%XY` for one byte. -/
def pctByte (b : Nat) : String :=
  String.mk [Char.ofNat 37, hexDigit (b / 16), hexDigit (b % 16)]

/-- The characters `encodeURIComponent` leaves unescaped:
`A-Z a-z 0-9 - _ . ! ~ * ' ( )`. -/
def isUnescaped (c : Char) : Bool :=
  c.isAlphanum || [Char.ofNat 45, Char.ofNat 95, Char.ofNat 46, Char.ofNat 33,
    Char.ofNat 126, Char.ofNat 42, Char.ofNat 39, Char.ofNat 40, Char.ofNat 41].contains c

/-- `encodeURIComponent`: percent-encode the UTF-8 bytes of every character
outside the unescaped set. -/
def encodeURIComponent (s : String) : String :=
  String.join (s.data.map fun c =>
    if isUnescaped c then String.mk [c]
    else String.join ((utf8Bytes c).map pctByte))

/-- The string JS substitutes for an undefined value in a template literal. -/
def jsStr : Option String → String
  | none => "undefined"
  | some s => s

/-- The url built by the viewer variant's `onExecuted` (lines 336-338): the
`subfolder` and `type` parameters are appended whenever the field is truthy,
with no regard to the storage class. -/
def viewerBuildUrl (filename : Option String) (subfolder ty : Option String) : String :=
  let u0 := "/view?filename=" ++ encodeURIComponent (jsStr filename)
  let u1 := if isTruthy subfolder then
    u0 ++ "&subfolder=" ++ encodeURIComponent (jsStr subfolder) else u0
  if isTruthy ty then u1 ++ "&type=" ++ encodeURIComponent (jsStr ty) else u1

/-- The url path built by the preview variant's `onExecuted`
(lines 316-325): `subfolder` defaults to `""`, `type` defaults to `"input"`,
and the `subfolder` parameter is emitted exactly when the storage class is
`"input"`. -/
def previewBuildUrl (filename : String) (subfolder ty : Option String) : String :=
  let sf := if isTruthy subfolder then jsStr subfolder else ""
  let t := if isTruthy ty then jsStr ty else "input"
  if t == "input" then
    "/view?filename=" ++ encodeURIComponent filename ++ "&subfolder=" ++
      encodeURIComponent sf ++ "&type=" ++ t
  else
    "/view?filename=" ++ encodeURIComponent filename ++ "&type=" ++ t

/-- Does `pat` occur at the head of `l`? -/
def leadMatch : List Char → List Char → Bool
  | _, [] => true
  | [], _ :: _ => false
  | a :: as, b :: bs => a == b && leadMatch as bs

/-- Does `pat` occur anywhere inside `l`? -/
def hasSub : List Char → List Char → Bool
  | [], pat => leadMatch [] pat
  | a :: as, pat => leadMatch (a :: as) pat || hasSub as pat

/-- Substring test on strings. -/
def strHasSub (s pat : String) : Bool := hasSub s.data pat.data

/-! ## Execution-complete handlers. -/

/-- One entry of the `"3d"` / `mesh` output list in an execution-complete
message; every field may be absent. -/
structure FileInfo where
  filename : Option String
  subfolder : Option String
  ty : Option String
deriving DecidableEq, Repr

/-- The viewer variant's `onExecuted` (lines 328-345): when the message
carries a nonempty `"3d"` list, build the url from its first entry and
request a load; otherwise do nothing.  `none` in the argument covers both a
null message and an absent `"3d"` field. -/
def viewerOnExecuted (msg : Option (List FileInfo)) : Option String :=
  match msg with
  | some (fi :: _) => some (viewerBuildUrl fi.filename fi.subfolder fi.ty)
  | _ => none

/-- The preview variant's `onExecuted` (lines 296-325): additionally requires
the first entry's `filename` to be truthy before building the url. -/
def previewOnExecuted (msg : Option (List FileInfo)) : Option String :=
  match msg with
  | some (fi :: _) =>
      if isTruthy fi.filename then
        some (previewBuildUrl (jsStr fi.filename) fi.subfolder fi.ty)
      else none
  | _ => none

/-- The full effect of the viewer variant's `onExecuted` on the widget: a
load is started exactly when the handler produced a url. -/
def viewerHandleExecuted (engineOk : Bool) (s : Sys) (msg : Option (List FileInfo)) : Sys :=
  match viewerOnExecuted msg with
  | some url => stepEv engineOk s (.issue url)
  | none => s

/-! ## Helper lemmas. -/

theorem clearModel_overlay (w : Widget) : (clearModel w).overlay = w.overlay := by
  cases h : w.model <;> simp [clearModel, h]

theorem clearModel_fetches (w : Widget) : (clearModel w).fetches = w.fetches := by
  cases h : w.model <;> simp [clearModel, h]

theorem clearModel_model (w : Widget) : (clearModel w).model = none := by
  cases h : w.model <;> simp [clearModel, h]

theorem clearModel_isInitialized (w : Widget) :
    (clearModel w).isInitialized = w.isInitialized := by
  cases h : w.model <;> simp [clearModel, h]

theorem clearModel_currentUrl (w : Widget) :
    (clearModel w).currentUrl = w.currentUrl := by
  cases h : w.model <;> simp [clearModel, h]

theorem clearModel_counters (w : Widget) :
    (clearModel w).scenesCreated = w.scenesCreated ∧
    (clearModel w).camerasCreated = w.camerasCreated ∧
    (clearModel w).renderersCreated = w.renderersCreated ∧
    (clearModel w).loopsStarted = w.loopsStarted := by
  cases h : w.model <;> simp [clearModel, h]

theorem animate_counters (w : Widget) :
    (animate w).scenesCreated = w.scenesCreated ∧
    (animate w).camerasCreated = w.camerasCreated ∧
    (animate w).renderersCreated = w.renderersCreated ∧
    (animate w).loopsStarted = w.loopsStarted ∧
    (animate w).overlay = w.overlay ∧
    (animate w).fetches = w.fetches ∧
    (animate w).model = w.model ∧
    (animate w).isInitialized = w.isInitialized ∧
    (animate w).currentUrl = w.currentUrl := by
  by_cases h : w.isInitialized = true <;> simp [animate, h]

/-- Over nondegenerate boxes the `ℚ`-valued transform matches the JS scale. -/
theorem scaleOf_eq_viewerTransform (b : Box3) (h : maxDim b ≠ 0) :
    scaleOf b = .fin (viewerTransform b).scale := by
  simp [scaleOf, jsDiv, viewerTransform, h]

/-- The world box of a uniformly scaled model has componentwise scaled size. -/
theorem worldBox_size (b : Box3) (t : Transform) :
    (worldBox b t).size = ⟨t.scale * b.size.x, t.scale * b.size.y, t.scale * b.size.z⟩ := by
  simp only [worldBox, Box3.size, V3.mk.injEq]
  refine ⟨by ring, by ring, by ring⟩

/-- For a nonnegative uniform scale, the largest dimension scales linearly. -/
theorem maxDim_worldBox (b : Box3) (t : Transform) (hs : 0 ≤ t.scale) :
    maxDim (worldBox b t) = t.scale * maxDim b := by
  simp only [maxDim, worldBox_size]
  rw [mul_max_of_nonneg _ _ hs, mul_max_of_nonneg _ _ hs]

/-- A widget that is not initialized ignores every frame callback. -/
theorem animateIter_of_notInit (w : Widget) (h : w.isInitialized = false) :
    ∀ k, animateIter k w = w := by
  intro k
  induction k with
  | zero => rfl
  | succ k ih =>
      have e : animate w = w := by simp [animate, h]
      calc animateIter (k + 1) w = animateIter k (animate w) := rfl
        _ = animateIter k w := by rw [e]
        _ = w := ih

/-! ## Claim C1: only the last-issued load is ever reflected. -/

/-- C1, counterexample: two loads issued back-to-back ("A" then "B", distinct
sources) whose fetches resolve out of order.  After both complete, the
attached model is `10` — the outcome of the FIRST-issued call "A" — and both
models sit in the scene, because the completion code has no request token and
attaches its result unconditionally.  This falsifies "only the last-issued
call's outcome is ever reflected in the attached model and viewer state". -/
theorem loadReorder_counterexample :
    ((runEvents true sys0
        [.issue "A", .issue "B", .complete 1 (.success 20), .complete 0 (.success 10)]).w.model
      = some 10) ∧
    ((runEvents true sys0
        [.issue "A", .issue "B", .complete 1 (.success 20), .complete 0 (.success 10)]).w.sceneModels
      = [20, 10]) ∧
    some 10 ≠ some 20 := by decide

/-- C1 (amended): `loadModel` carries no request token; every fetch completion
that is still outstanding mutates the widget when it resolves, so the
LAST-COMPLETED (not last-issued) successful load determines the attached
model, and a model attached by a superseded completion is not removed from
the scene. -/
theorem loadCompletion_lastCompletedWins (engineOk : Bool) (s : Sys) (i : Nat)
    (u : String) (m : Nat) (h : s.pend.get? i = some (some u)) :
    ((stepEv engineOk s (.complete i (.success m))).w.model = some m) ∧
    ((stepEv engineOk s (.complete i (.success m))).w.sceneModels
      = s.w.sceneModels ++ [m]) := by
  rw [List.get?_eq_getElem?] at h
  simp [stepEv, h, loadPhase2]

/-- Witness for `loadCompletion_lastCompletedWins` at a concrete pending load. -/
theorem loadCompletion_lastCompletedWins_witness :
    ((runEvents true sys0 [Event.issue "A"]).pend.get? 0 = some (some "A")) ∧
    (((stepEv true (runEvents true sys0 [Event.issue "A"])
        (.complete 0 (.success 7))).w.model = some 7) ∧
     ((stepEv true (runEvents true sys0 [Event.issue "A"])
        (.complete 0 (.success 7))).w.sceneModels
       = (runEvents true sys0 [Event.issue "A"]).w.sceneModels ++ [7])) :=
  ⟨by decide,
   loadCompletion_lastCompletedWins true (runEvents true sys0 [Event.issue "A"])
     0 "A" 7 (by decide)⟩

/-! ## Claim C2: a failed load preserves the previously rendered model. -/

/-- C2, counterexample: a viewer that has successfully rendered model `10`
from "A" receives a load of "B" whose fetch fails.  After the failure the
previously attached model is gone: it was removed from the scene and disposed
at the START of the load of "B", before the fetch, so the failure leaves no
model attached.  This falsifies "the previously attached model remains
attached and unchanged after the failure". -/
theorem loadFailure_counterexample :
    ((runEvents true sys0
        [.issue "A", .complete 0 (.success 10), .issue "B", .complete 1 .failure]).w.model
      = none) ∧
    ((runEvents true sys0
        [.issue "A", .complete 0 (.success 10), .issue "B", .complete 1 .failure]).w.sceneModels
      = []) ∧
    ((runEvents true sys0
        [.issue "A", .complete 0 (.success 10), .issue "B", .complete 1 .failure]).w.disposedModels
      = [10]) ∧
    ((runEvents true sys0
        [.issue "A", .complete 0 (.success 10), .issue "B", .complete 1 .failure]).w.overlay
      = Overlay.loadError) := by decide

/-- C2 (amended): a load of a new source removes and disposes the previously
attached model in its synchronous prefix, before the fetch is even issued;
when the fetch then fails, only the error overlay is shown and no model is
attached — the prior render is never preserved across a failed reload. -/
theorem loadFailure_priorDisposed (engineOk : Bool) (w : Widget) (url : String)
    (m : Nat) (hm : w.model = some m) (hi : w.isInitialized = true)
    (hu : w.currentUrl ≠ some url) :
    ((loadPhase1 engineOk w url).2 = some url) ∧
    ((loadPhase1 engineOk w url).1.model = none) ∧
    ((loadPhase1 engineOk w url).1.disposedModels = w.disposedModels ++ [m]) ∧
    ((loadPhase1 engineOk w url).1.sceneModels = w.sceneModels.erase m) ∧
    ((loadPhase2 (loadPhase1 engineOk w url).1 .failure).model = none) ∧
    ((loadPhase2 (loadPhase1 engineOk w url).1 .failure).overlay = Overlay.loadError) := by
  have hbe : (w.currentUrl == some url) = false := by
    simp [hu]
  simp [loadPhase1, hbe, hi, clearModel, hm, loadPhase2]

/-- Witness for `loadFailure_priorDisposed` at a concrete rendered widget. -/
theorem loadFailure_priorDisposed_witness :
    (((runEvents true sys0 [Event.issue "A", .complete 0 (.success 10)]).w.model = some 10) ∧
     ((runEvents true sys0 [Event.issue "A", .complete 0 (.success 10)]).w.isInitialized = true) ∧
     ((runEvents true sys0 [Event.issue "A", .complete 0 (.success 10)]).w.currentUrl ≠ some "B")) ∧
    ((loadPhase1 true (runEvents true sys0 [Event.issue "A", .complete 0 (.success 10)]).w "B").2
      = some "B") ∧
    ((loadPhase2 (loadPhase1 true
        (runEvents true sys0 [Event.issue "A", .complete 0 (.success 10)]).w "B").1 .failure).model
      = none) :=
  ⟨⟨by decide, by decide, by decide⟩,
   (loadFailure_priorDisposed true
      (runEvents true sys0 [Event.issue "A", .complete 0 (.success 10)]).w
      "B" 10 (by decide) (by decide) (by decide)).1,
   (loadFailure_priorDisposed true
      (runEvents true sys0 [Event.issue "A", .complete 0 (.success 10)]).w
      "B" 10 (by decide) (by decide) (by decide)).2.2.2.2.1⟩

/-! ## Claim C4: any load is accepted from the Error state. -/

/-- C4, counterexample: a load of "A" fails; a retry with the SAME source "A"
is silently dropped by the `currentUrl === url` early return, because
`currentUrl` was recorded before the fetch and is not reset on failure.  The
overlay stays on the error message (no transition back to Loading), no second
fetch is issued, and the retry call fetched nothing (`pend = [none, none]`).
This falsifies "a subsequent load() call — including one for the same source
as the failed attempt — is accepted". -/
theorem retryAfterError_counterexample :
    ((runEvents true sys0 [.issue "A", .complete 0 .failure, .issue "A"]).w.overlay
      = Overlay.loadError) ∧
    ((runEvents true sys0 [.issue "A", .complete 0 .failure, .issue "A"]).w.fetches
      = ["A"]) ∧
    ((runEvents true sys0 [.issue "A", .complete 0 .failure, .issue "A"]).pend
      = [none, none]) ∧
    ((runEvents false sys0 [.issue "A", .issue "A"]).w.overlay = Overlay.engineError) ∧
    ((runEvents false sys0 [.issue "A", .issue "A"]).w.scenesCreated = 0) := by decide

/-- C4 (amended): after a failure, a subsequent `load()` with a DIFFERENT
source key is accepted — it transitions to the loading overlay, issues a
fetch, and re-attempts engine initialization when the widget is not yet
initialized — but a `load()` whose source key equals the one recorded by the
failed attempt is a no-op, because `currentUrl` is assigned before the fetch
and never cleared on failure. -/
theorem retryAfterError_differentSourceOnly (w : Widget) (u2 : String)
    (hu : w.currentUrl ≠ some u2) :
    ((loadPhase1 true w u2).2 = some u2) ∧
    ((loadPhase1 true w u2).1.overlay = Overlay.loadingModel) ∧
    ((loadPhase1 true w u2).1.fetches = w.fetches ++ [u2]) ∧
    (w.isInitialized = false →
      (loadPhase1 true w u2).1.loopsStarted = w.loopsStarted + 1 ∧
      (loadPhase1 true w u2).1.isInitialized = true) ∧
    (∀ u, w.currentUrl = some u → loadPhase1 true w u = (w, none)) := by
  have hbe : (w.currentUrl == some u2) = false := by simp [hu]
  by_cases hi : w.isInitialized = true
  · refine ⟨?_, ?_, ?_, ?_, ?_⟩
    · simp [loadPhase1, hbe, hi]
    · simp [loadPhase1, hbe, hi, clearModel_overlay]
    · simp [loadPhase1, hbe, hi, clearModel_fetches]
    · intro hfalse; rw [hi] at hfalse; cases hfalse
    · intro u hcur; simp [loadPhase1, hcur]
  · have hi' : w.isInitialized = false := by
      cases h : w.isInitialized
      · rfl
      · exact absurd h hi
    refine ⟨?_, ?_, ?_, ?_, ?_⟩
    · simp [loadPhase1, hbe, hi', init, animate]
    · simp [loadPhase1, hbe, hi', init, animate, clearModel_overlay]
    · simp [loadPhase1, hbe, hi', init, animate, clearModel_fetches]
    · intro _
      constructor
      · simp [loadPhase1, hbe, hi', init, animate, (clearModel_counters _).2.2.2]
      · simp [loadPhase1, hbe, hi', init, animate, clearModel_isInitialized]
    · intro u hcur; simp [loadPhase1, hcur]

/-- Witness for `retryAfterError_differentSourceOnly` at the state left by a
failed load of "A". -/
theorem retryAfterError_differentSourceOnly_witness :
    ((runEvents true sys0 [Event.issue "A", .complete 0 .failure]).w.currentUrl ≠ some "B") ∧
    ((loadPhase1 true (runEvents true sys0 [Event.issue "A", .complete 0 .failure]).w "B").2
      = some "B") ∧
    ((loadPhase1 true (runEvents true sys0 [Event.issue "A", .complete 0 .failure]).w "B").1.overlay
      = Overlay.loadingModel) :=
  ⟨by decide,
   (retryAfterError_differentSourceOnly
      (runEvents true sys0 [Event.issue "A", .complete 0 .failure]).w "B" (by decide)).1,
   (retryAfterError_differentSourceOnly
      (runEvents true sys0 [Event.issue "A", .complete 0 .failure]).w "B" (by decide)).2.1⟩

/-! ## Claim C5: reloading an unchanged source while rendered is a no-op. -/

/-- C5: a widget in the rendered state (a model is attached, and `currentUrl`
records the rendered source) that receives `loadModel` for the same url
returns immediately: the widget is unchanged — in particular no new fetch is
recorded and the attached model stays — and no request is put in flight. -/
theorem loadIdempotent_sameUrl (engineOk : Bool) (w : Widget) (url : String)
    (m : Nat) (hm : w.model = some m) (hcur : w.currentUrl = some url) :
    loadPhase1 engineOk w url = (w, none) ∧
    (loadPhase1 engineOk w url).1.fetches = w.fetches ∧
    (loadPhase1 engineOk w url).1.model = some m := by
  have h1 : loadPhase1 engineOk w url = (w, none) := by simp [loadPhase1, hcur]
  exact ⟨h1, by rw [h1], by rw [h1]; exact hm⟩

/-- Witness for `loadIdempotent_sameUrl` at a concrete rendered widget. -/
theorem loadIdempotent_sameUrl_witness :
    (((runEvents true sys0 [Event.issue "A", .complete 0 (.success 10)]).w.model = some 10) ∧
     ((runEvents true sys0 [Event.issue "A", .complete 0 (.success 10)]).w.currentUrl = some "A")) ∧
    (loadPhase1 true (runEvents true sys0 [Event.issue "A", .complete 0 (.success 10)]).w "A"
      = ((runEvents true sys0 [Event.issue "A", .complete 0 (.success 10)]).w, none)) :=
  ⟨⟨by decide, by decide⟩,
   (loadIdempotent_sameUrl true
      (runEvents true sys0 [Event.issue "A", .complete 0 (.success 10)]).w
      "A" 10 (by decide) (by decide)).1⟩

/-! ## Claim C6: engine initialization is idempotent. -/

/-- C6, counterexample: `init()` has no already-initialized guard.  Calling it
a second time on an (already initialized) widget executes the whole body
again: two scenes, two cameras, two renderers and two render loops now exist.
This falsifies "calling initialize on a viewer instance that is already
initialized returns immediately without side effects". -/
theorem initIdempotent_counterexample :
    ((init true widget0).1.isInitialized = true) ∧
    ((init true (init true widget0).1).1.scenesCreated = 2) ∧
    ((init true (init true widget0).1).1.camerasCreated = 2) ∧
    ((init true (init true widget0).1).1.renderersCreated = 2) ∧
    ((init true (init true widget0).1).1.loopsStarted = 2) := by decide

/-- C6 (amended): `init()` itself is unguarded — every successful call creates
a fresh scene, camera, renderer and render loop, even on an initialized
widget; re-initialization is prevented only at the `loadModel` call site,
which invokes `init()` solely when `isInitialized` is false, so a load on an
initialized widget creates no second engine context. -/
theorem initUnguarded_loadSiteGuarded (engineOk : Bool) (w : Widget) (url : String)
    (hi : w.isInitialized = true) :
    ((init true w).1.scenesCreated = w.scenesCreated + 1) ∧
    ((init true w).1.renderersCreated = w.renderersCreated + 1) ∧
    ((init true w).1.loopsStarted = w.loopsStarted + 1) ∧
    ((loadPhase1 engineOk w url).1.scenesCreated = w.scenesCreated) ∧
    ((loadPhase1 engineOk w url).1.renderersCreated = w.renderersCreated) ∧
    ((loadPhase1 engineOk w url).1.loopsStarted = w.loopsStarted) := by
  refine ⟨?_, ?_, ?_, ?_, ?_, ?_⟩
  · simp [init, animate]
  · simp [init, animate]
  · simp [init, animate]
  all_goals
    by_cases hbe : (w.currentUrl == some url) = true
  · simp [loadPhase1, hbe]
  · simp [loadPhase1, Bool.not_eq_true _ ▸ hbe, hi, (clearModel_counters _).1]
  · simp [loadPhase1, hbe]
  · simp [loadPhase1, Bool.not_eq_true _ ▸ hbe, hi, (clearModel_counters _).2.2.1]
  · simp [loadPhase1, hbe]
  · simp [loadPhase1, Bool.not_eq_true _ ▸ hbe, hi, (clearModel_counters _).2.2.2]

/-- Witness for `initUnguarded_loadSiteGuarded` at an initialized widget. -/
theorem initUnguarded_loadSiteGuarded_witness :
    ((init true widget0).1.isInitialized = true) ∧
    ((init true (init true widget0).1).1.scenesCreated
      = (init true widget0).1.scenesCreated + 1) ∧
    ((loadPhase1 true (init true widget0).1 "A").1.scenesCreated
      = (init true widget0).1.scenesCreated) :=
  ⟨by decide,
   (initUnguarded_loadSiteGuarded true (init true widget0).1 "A" (by decide)).1,
   (initUnguarded_loadSiteGuarded true (init true widget0).1 "A" (by decide)).2.2.2.1⟩

/-! ## Claim C10: an execution-complete message with no scene file is a no-op. -/

/-- C10: when the execution-complete message carries no scene file entry (the
message or its "3d"/mesh field is absent, or the list is empty), neither
handler requests a load, and the viewer system — attached model, current
source key, overlay, everything — is left exactly as it was. -/
theorem emptyMessage_noop (engineOk : Bool) (s : Sys) (msg : Option (List FileInfo))
    (h : msg = none ∨ msg = some []) :
    viewerHandleExecuted engineOk s msg = s ∧
    viewerOnExecuted msg = none ∧
    previewOnExecuted msg = none := by
  rcases h with h | h <;> subst h <;>
    simp [viewerHandleExecuted, viewerOnExecuted, previewOnExecuted]

/-- Witness for `emptyMessage_noop` on the empty-list message. -/
theorem emptyMessage_noop_witness :
    viewerHandleExecuted true sys0 (some []) = sys0 ∧
    viewerOnExecuted (some []) = none ∧
    previewOnExecuted (some []) = none :=
  emptyMessage_noop true sys0 (some []) (Or.inr rfl)

/-! ## Claim C3: degenerate bounding boxes are guarded and surfaced as errors. -/

/-- C3, counterexample: loading a model whose bounding box has zero size in
all dimensions, the success path computes `scale = 2 / 0 = Infinity` — the
division is NOT guarded — and attaches the model with that degenerate scale
instead of surfacing a load error. -/
theorem degenerateBox_counterexample :
    (successOutcome ⟨⟨0, 0, 0⟩, ⟨0, 0, 0⟩⟩ = .attached .posInf) ∧
    (successOutcome ⟨⟨0, 0, 0⟩, ⟨0, 0, 0⟩⟩ ≠ .loadError) := by
  norm_num [successOutcome, scaleOf, jsDiv, maxDim, Box3.size]
  decide

/-- C3 (amended): the scale computation has no division-by-zero guard: for
every model whose bounding box has zero maximum dimension, the load succeeds
and the model is attached with the JS value `scale = Infinity`; no load error
is raised. -/
theorem degenerateBox_attachedInfinity (b : Box3) (h : maxDim b = 0) :
    (successOutcome b = .attached .posInf) ∧ successOutcome b ≠ .loadError := by
  constructor
  · simp only [successOutcome, scaleOf, jsDiv, h, if_pos rfl]
    norm_num
  · simp [successOutcome]

/-- Witness for `degenerateBox_attachedInfinity` at the zero box. -/
theorem degenerateBox_attachedInfinity_witness :
    (maxDim ⟨⟨1, 1, 1⟩, ⟨1, 1, 1⟩⟩ = 0) ∧
    (successOutcome ⟨⟨1, 1, 1⟩, ⟨1, 1, 1⟩⟩ = .attached .posInf) :=
  ⟨by norm_num [maxDim, Box3.size],
   (degenerateBox_attachedInfinity ⟨⟨1, 1, 1⟩, ⟨1, 1, 1⟩⟩
     (by norm_num [maxDim, Box3.size])).1⟩

/-! ## Claim C7: the normalized model has largest dimension 2 and centre at
the origin. -/

/-- C7, counterexample: the preview variant lifts the model by half its
scaled height after recentring, so the recomputed bounding box of the box
`[0,1]×[0,2]×[0,1]` (largest dimension along y) has centre `(0, 1, 0)`, one
full scene unit away from the origin — not at the origin within epsilon. -/
theorem previewCenter_counterexample :
    ((worldBox ⟨⟨0, 0, 0⟩, ⟨1, 2, 1⟩⟩ (previewTransform ⟨⟨0, 0, 0⟩, ⟨1, 2, 1⟩⟩)).center
      = ⟨0, 1, 0⟩) ∧
    ((⟨0, 1, 0⟩ : V3) ≠ ⟨0, 0, 0⟩) := by
  norm_num [worldBox, previewTransform, Box3.center, Box3.size, maxDim, V3.mk.injEq]

/-- C7 (amended): for every nondegenerate load, the recomputed world bounding
box has largest dimension exactly 2 in BOTH variants; its centre is at the
origin in the viewer variant, while the preview variant places the centre at
height `size.y * scale / 2` above the origin — the box bottom rests on the
`y = 0` plane instead. -/
theorem normalizedBox_geometry (b : Box3) (h : 0 < maxDim b) :
    ((worldBox b (viewerTransform b)).center = ⟨0, 0, 0⟩) ∧
    (maxDim (worldBox b (viewerTransform b)) = 2) ∧
    (maxDim (worldBox b (previewTransform b)) = 2) ∧
    ((worldBox b (previewTransform b)).center
      = ⟨0, b.size.y * (2 / maxDim b) / 2, 0⟩) ∧
    ((worldBox b (previewTransform b)).lo.y = 0) := by
  have hne : maxDim b ≠ 0 := ne_of_gt h
  have hs : (0 : ℚ) ≤ 2 / maxDim b := by positivity
  refine ⟨?_, ?_, ?_, ?_, ?_⟩
  · simp only [worldBox, Box3.center, viewerTransform, Box3.size, V3.mk.injEq]
    refine ⟨by ring, by ring, by ring⟩
  · rw [maxDim_worldBox b _ (by simpa [viewerTransform] using hs)]
    show 2 / maxDim b * maxDim b = 2
    field_simp
  · rw [maxDim_worldBox b _ (by simpa [previewTransform] using hs)]
    show 2 / maxDim b * maxDim b = 2
    field_simp
  · simp only [worldBox, Box3.center, previewTransform, Box3.size, V3.mk.injEq]
    refine ⟨by ring, by ring, by ring⟩
  · simp only [worldBox, previewTransform, Box3.size, Box3.center]
    ring

/-! ## Claim C8: composed retrieval URLs and the namespace omission rule. -/

/-- C8, counterexample: for the descriptor
`{identifier: "model_1699999999.glb", namespace: "s", storageClass: "output"}`
the viewer variant's handler still emits the namespace (`subfolder`)
parameter although the storage class is not "input" — its url builder keys
the parameter on truthiness of the field alone.  (The preview variant does
omit it.)  This falsifies "whenever the descriptor's storage class is not
input the namespace parameter is omitted from the composed URL". -/
theorem urlNamespace_counterexample :
    (viewerBuildUrl (some "model_1699999999.glb") (some "s") (some "output")
      = "/view?filename=model_1699999999.glb&subfolder=s&type=output") ∧
    (strHasSub (viewerBuildUrl (some "model_1699999999.glb") (some "s") (some "output"))
      "&subfolder=" = true) ∧
    (previewBuildUrl "model_1699999999.glb" (some "s") (some "output")
      = "/view?filename=model_1699999999.glb&type=output") := by decide

/-- C8 (amended): both handlers percent-encode the identifier and namespace
into query parameters; the PREVIEW handler omits the namespace parameter
exactly when the storage class is not "input" (and includes it when the
storage class defaults to "input"), while the VIEWER handler appends the
namespace whenever the field is truthy, regardless of the storage class. -/
theorem urlNamespace_byVariant (f sf : String) (hsf : sf ≠ "") :
    (previewBuildUrl f (some sf) (some "output")
      = "/view?filename=" ++ encodeURIComponent f ++ "&type=output") ∧
    (previewBuildUrl f (some sf) none
      = "/view?filename=" ++ encodeURIComponent f ++ "&subfolder="
          ++ encodeURIComponent sf ++ "&type=input") ∧
    (viewerBuildUrl (some f) (some sf) (some "output")
      = "/view?filename=" ++ encodeURIComponent f ++ "&subfolder="
          ++ encodeURIComponent sf ++ "&type=output") := by
  have hb : (sf != "") = true := by simpa using hsf
  have hoi : (("output" : String) == "input") = false := by decide
  have hit : (("input" : String) == "input") = true := by decide
  have hou : (("output" : String) != "") = true := by decide
  have e1 : ("&type=" ++ "output" : String) = "&type=output" := by decide
  have e2 : ("&type=" ++ "input" : String) = "&type=input" := by decide
  have e3 : encodeURIComponent "output" = "output" := by decide
  refine ⟨?_, ?_, ?_⟩
  · simp only [previewBuildUrl, isTruthy, jsStr, hb, hou, if_true, hoi, Bool.false_eq_true,
      if_false, String.append_assoc, e1]
  · simp only [previewBuildUrl, isTruthy, jsStr, hb, if_true, hit, Bool.false_eq_true,
      if_false, String.append_assoc, e2]
  · simp only [viewerBuildUrl, isTruthy, jsStr, hb, hou, if_true, String.append_assoc,
      e3, e1]

/-- Witness for `urlNamespace_byVariant` at a concrete descriptor. -/
theorem urlNamespace_byVariant_witness :
    (("s" : String) ≠ "") ∧
    (previewBuildUrl "m.glb" (some "s") (some "output")
      = "/view?filename=" ++ encodeURIComponent "m.glb" ++ "&type=output") ∧
    (viewerBuildUrl (some "m.glb") (some "s") (some "output")
      = "/view?filename=" ++ encodeURIComponent "m.glb" ++ "&subfolder="
          ++ encodeURIComponent "s" ++ "&type=output") :=
  ⟨by decide,
   (urlNamespace_byVariant "m.glb" "s" (by decide)).1,
   (urlNamespace_byVariant "m.glb" "s" (by decide)).2.2⟩

/-! ## Claim C9: teardown is idempotent, safe pre-initialization, and stops
the frame loop for good. -/

theorem clearModelE_ok (w : Widget) (h : w.model = none ∨ 0 < w.scenesCreated) :
    clearModelE w = .ok (clearModel w) := by
  rcases h with h | h
  · simp [clearModelE, clearModel, h]
  · cases hm : w.model
    · simp [clearModelE, clearModel, hm]
    · simp [clearModelE, clearModel, hm, Nat.pos_iff_ne_zero.mp h]

theorem destroyE_ok (w : Widget) (h : w.model = none ∨ 0 < w.scenesCreated) :
    destroyE w = .ok (destroyPure w) := by
  have h1 : clearModelE (if w.animationId.isSome then { w with animPending := false } else w)
      = .ok (clearModel (if w.animationId.isSome then { w with animPending := false } else w)) := by
    apply clearModelE_ok
    by_cases ha : w.animationId.isSome = true <;> simp [ha] <;> exact h
  unfold destroyE destroyPure
  simp only [h1]

theorem destroyPure_model (w : Widget) : (destroyPure w).model = none := by
  simp only [destroyPure]
  split_ifs <;> simp [clearModel_model]

theorem destroyPure_isInit (w : Widget) : (destroyPure w).isInitialized = false := rfl

theorem destroyPure_idem (w : Widget) : destroyPure (destroyPure w) = destroyPure w := by
  cases w with
  | mk ii cu mo sm dm ov fe sc ca rc rd ls ai ap rdn =>
      cases mo <;> cases ai <;>
        simp [destroyPure, clearModel] <;> split <;> simp_all

/-- C9: for every widget whose scene exists whenever a model is attached (true
of every reachable state, in particular of a fresh widget that never loaded
or initialized), `destroy()` completes without a null dereference; running
`destroy()` again on the result is again safe and changes nothing
(idempotence); and after teardown the widget is no longer initialized, so any
number of later frame callbacks fire as no-ops — the render loop never draws
again and does not restart. -/
theorem teardownSafeIdem (w : Widget) (h : w.model = none ∨ 0 < w.scenesCreated) :
    destroyE w = .ok (destroyPure w) ∧
    destroyE (destroyPure w) = .ok (destroyPure w) ∧
    (destroyPure w).isInitialized = false ∧
    (∀ k, animateIter k (destroyPure w) = destroyPure w) := by
  refine ⟨destroyE_ok w h, ?_, destroyPure_isInit w,
    animateIter_of_notInit _ (destroyPure_isInit w)⟩
  rw [destroyE_ok (destroyPure w) (Or.inl (destroyPure_model w)), destroyPure_idem]

/-- Witness for `teardownSafeIdem` at the fresh, never-loaded widget. -/
theorem teardownSafeIdem_witness :
    (widget0.model = none ∨ 0 < widget0.scenesCreated) ∧
    (destroyE widget0 = .ok (destroyPure widget0) ∧
     destroyE (destroyPure widget0) = .ok (destroyPure widget0) ∧
     (destroyPure widget0).isInitialized = false ∧
     (∀ k, animateIter k (destroyPure widget0) = destroyPure widget0)) :=
  ⟨Or.inl rfl, teardownSafeIdem widget0 (Or.inl rfl)⟩

/-- Witness for `normalizedBox_geometry` at the box `[0,1]×[0,2]×[0,1]`. -/
theorem normalizedBox_geometry_witness :
    (0 < maxDim ⟨⟨0, 0, 0⟩, ⟨1, 2, 1⟩⟩) ∧
    ((worldBox ⟨⟨0, 0, 0⟩, ⟨1, 2, 1⟩⟩ (viewerTransform ⟨⟨0, 0, 0⟩, ⟨1, 2, 1⟩⟩)).center
      = ⟨0, 0, 0⟩) ∧
    (maxDim (worldBox ⟨⟨0, 0, 0⟩, ⟨1, 2, 1⟩⟩ (viewerTransform ⟨⟨0, 0, 0⟩, ⟨1, 2, 1⟩⟩)) = 2) :=
  ⟨by norm_num [maxDim, Box3.size],
   (normalizedBox_geometry ⟨⟨0, 0, 0⟩, ⟨1, 2, 1⟩⟩ (by norm_num [maxDim, Box3.size])).1,
   (normalizedBox_geometry ⟨⟨0, 0, 0⟩, ⟨1, 2, 1⟩⟩ (by norm_num [maxDim, Box3.size])).2.1⟩

end Bespoke
